import Mathlib

/-!
# Somnia merchant ledger: shallow embedding and verification

This file embeds the merchant ledger engine of the repository in Lean 4 and
proves its stated properties against the embedding.

Embedded source files:
* StorageLib (data structures), ValidationLib (precondition checks),
  InventoryLib (addItem, restock, toggleActive) and PurchaseLib
  (processPurchase), as composed by the contract MerchantNPCCoreV2
  (clone initialization, minting, inventory calls, buyItem, withdrawProfit)
  and the clone factory MerchantFactoryCoreV2 (registerAIAgent,
  createMerchant).

Modelling conventions:
* uint256 values are Nat, with an explicit check against U256 = 2 ^ 256
  wherever Solidity 0.8 checked arithmetic could overflow; such an overflow
  aborts with the error arithmeticOverflow (the Panic(0x11) revert).
* addresses are Nat, with 0 playing the role of the zero address.
* a Solidity mapping is a total function returning the zero value of its
  range type on never-written keys, exactly as EVM storage does.
* a reverting call is Except.error; since a revert rolls back every storage
  write of the call, an operation is a pure function from the pre-state
  returning either the complete post-state (ok) or an error, and the
  observable state after a failed call is the unchanged pre-state (the
  applyX wrappers below spell out this revert semantics).
* events, gas, and the outward value transfers themselves are environment
  effects and are not part of the state; the amount a transfer would move
  is returned as data.
* the Solidity function MerchantNPCCoreV2.initialize is rendered here under
  the name initializeClone.
-/

/-- 2 ^ 256, the number of uint256 values; arithmetic reaching this bound
reverts in Solidity 0.8. -/
def U256 : Nat := 2 ^ 256

/-- StorageLib.Item: one inventory entry. -/
structure Item where
  name : String
  price : Nat
  quantity : Nat
  isActive : Bool
deriving Repr, DecidableEq

/-- The zero value of an Item slot: what an unwritten mapping key holds. -/
def defaultItem : Item :=
  { name := "", price := 0, quantity := 0, isActive := false }

/-- StorageLib.MerchantData. -/
structure MerchantData where
  name : String
  owner : Nat
  totalProfit : Nat
deriving Repr, DecidableEq

/-- The zero value of a MerchantData slot. -/
def defaultMerchant : MerchantData :=
  { name := "", owner := 0, totalProfit := 0 }

/-- StorageLib.InventorySlot: the items mapping plus itemCount. -/
structure InventorySlot where
  items : Nat → Item
  itemCount : Nat

/-- A fresh inventory slot: every items key unwritten, itemCount zero. -/
def emptyInventory : InventorySlot :=
  { items := fun _ => defaultItem, itemCount := 0 }

/-- Write one key of the items mapping. -/
def setItem (inv : InventorySlot) (itemId : Nat) (item : Item) : InventorySlot :=
  { inv with items := fun j => if j = itemId then item else inv.items j }

/-- The error kinds the embedded operations can abort with: the custom
errors of ValidationLib / MerchantNPCCoreV2 / MerchantFactoryCoreV2, the
checked-arithmetic panic, and the ERC721 reverts reached through
ownerOf / _safeMint. -/
inductive MerchErr where
  | invalidPrice
  | invalidQuantity
  | invalidName
  | itemNotActive
  | insufficientStock
  | insufficientPayment
  | notMerchantOwner
  | noProfit
  | alreadyInitialized
  | notInitialized
  | invalidOwner
  | arithmeticOverflow
  | nonexistentToken
  | mintToExistingToken
deriving Repr, DecidableEq

/-- ValidationLib.validatePrice. -/
def ValidationLib.validatePrice (price : Nat) : Except MerchErr Unit :=
  if price = 0 then Except.error MerchErr.invalidPrice else Except.ok ()

/-- ValidationLib.validateQuantity. -/
def ValidationLib.validateQuantity (qty : Nat) : Except MerchErr Unit :=
  if qty = 0 then Except.error MerchErr.invalidQuantity else Except.ok ()

/-- ValidationLib.validateName: bytes(name).length == 0 iff the string is
empty. -/
def ValidationLib.validateName (name : String) : Except MerchErr Unit :=
  if name = "" then Except.error MerchErr.invalidName else Except.ok ()

/-- ValidationLib.validateStock. -/
def ValidationLib.validateStock (available requested : Nat) : Except MerchErr Unit :=
  if available < requested then Except.error MerchErr.insufficientStock else Except.ok ()

/-- ValidationLib.validatePayment. -/
def ValidationLib.validatePayment (sent required : Nat) : Except MerchErr Unit :=
  if sent < required then Except.error MerchErr.insufficientPayment else Except.ok ()

/-- InventoryLib.addItem: validate name, price, quantity; allocate the next
id (post-increment of itemCount, checked); store the item active. Events
are not modelled. Returns the new slot and the allocated id. -/
def InventoryLib.addItem (inv : InventorySlot) (name : String) (price quantity : Nat) :
    Except MerchErr (InventorySlot × Nat) :=
  match ValidationLib.validateName name with
  | Except.error e => Except.error e
  | Except.ok _ =>
  match ValidationLib.validatePrice price with
  | Except.error e => Except.error e
  | Except.ok _ =>
  match ValidationLib.validateQuantity quantity with
  | Except.error e => Except.error e
  | Except.ok _ =>
    if U256 ≤ inv.itemCount + 1 then Except.error MerchErr.arithmeticOverflow
    else
      Except.ok
        ({ setItem inv inv.itemCount
            { name := name, price := price, quantity := quantity, isActive := true } with
          itemCount := inv.itemCount + 1 }, inv.itemCount)

/-- InventoryLib.restock: validate the added quantity, then
items[itemId].quantity += additionalQty (checked addition). No existence
check and no change to any other field. -/
def InventoryLib.restock (inv : InventorySlot) (itemId additionalQty : Nat) :
    Except MerchErr InventorySlot :=
  match ValidationLib.validateQuantity additionalQty with
  | Except.error e => Except.error e
  | Except.ok _ =>
    if U256 ≤ (inv.items itemId).quantity + additionalQty then
      Except.error MerchErr.arithmeticOverflow
    else
      Except.ok (setItem inv itemId
        { inv.items itemId with quantity := (inv.items itemId).quantity + additionalQty })

/-- InventoryLib.toggleActive: flip the flag unconditionally; total. -/
def InventoryLib.toggleActive (inv : InventorySlot) (itemId : Nat) : InventorySlot :=
  setItem inv itemId
    { inv.items itemId with isActive := !(inv.items itemId).isActive }

/-- PurchaseLib.processPurchase: check active, stock, checked multiply for
the total cost, payment, then decrement stock and credit profit (checked
addition) in one atomic step. Returns the new inventory and merchant data,
the total cost, and the refund msg.value - totalCost the code transfers
back to the buyer (0 when the payment was exact). -/
def PurchaseLib.processPurchase (inv : InventorySlot) (merchant : MerchantData)
    (itemId quantity msgValue : Nat) :
    Except MerchErr (InventorySlot × MerchantData × Nat × Nat) :=
  if (inv.items itemId).isActive = false then Except.error MerchErr.itemNotActive
  else
    match ValidationLib.validateStock (inv.items itemId).quantity quantity with
    | Except.error e => Except.error e
    | Except.ok _ =>
      if U256 ≤ (inv.items itemId).price * quantity then
        Except.error MerchErr.arithmeticOverflow
      else
        match ValidationLib.validatePayment msgValue ((inv.items itemId).price * quantity) with
        | Except.error e => Except.error e
        | Except.ok _ =>
          if U256 ≤ merchant.totalProfit + (inv.items itemId).price * quantity then
            Except.error MerchErr.arithmeticOverflow
          else
            Except.ok
              (setItem inv itemId
                { inv.items itemId with
                  quantity := (inv.items itemId).quantity - quantity },
               { merchant with
                 totalProfit := merchant.totalProfit + (inv.items itemId).price * quantity },
               (inv.items itemId).price * quantity,
               msgValue - (inv.items itemId).price * quantity)

/-- The inventory and merchant data observable after processPurchase under
revert semantics: the new pair on success, the untouched pre-state on any
revert. -/
def PurchaseLib.applyPurchase (inv : InventorySlot) (merchant : MerchantData)
    (itemId quantity msgValue : Nat) : InventorySlot × MerchantData :=
  match PurchaseLib.processPurchase inv merchant itemId quantity msgValue with
  | Except.ok (inv2, m2, _, _) => (inv2, m2)
  | Except.error _ => (inv, merchant)

/-- The storage of one MerchantNPCCoreV2 contract: the initialization flag,
the token counter, the clone owner, the ERC721 owner mapping (0 = not
minted), and the merchants / inventories mappings. -/
structure CoreState where
  initialized : Bool
  tokenIdCounter : Nat
  merchantOwner : Nat
  tokenOwner : Nat → Nat
  merchants : Nat → MerchantData
  inventories : Nat → InventorySlot

/-- The implementation (template) contract right after its constructor ran:
all storage zero except the flag, which the constructor sets to true so the
template can never be initialized as a live merchant. -/
def templateState : CoreState :=
  { initialized := true
    tokenIdCounter := 0
    merchantOwner := 0
    tokenOwner := fun _ => 0
    merchants := fun _ => defaultMerchant
    inventories := fun _ => emptyInventory }

/-- A fresh minimal-proxy clone: it skips the constructor, so every storage
slot is zero, the initialization flag included. -/
def cloneState : CoreState :=
  { templateState with initialized := false }

/-- ERC721 ownerOf: reverts on a token that was never minted. -/
def CoreState.ownerOf (s : CoreState) (tokenId : Nat) : Except MerchErr Nat :=
  if s.tokenOwner tokenId = 0 then Except.error MerchErr.nonexistentToken
  else Except.ok (s.tokenOwner tokenId)

/-- MerchantNPCCoreV2.initialize (rendered as initializeClone): reject a
second call, validate the name, require a non-zero owner, set the flag,
record the clone owner, and mint the first bound merchant record (the
_safeMint existence check included; the receiver callback is an
environment effect). -/
def CoreV2.initializeClone (s : CoreState) (name : String) (owner : Nat) :
    Except MerchErr CoreState :=
  if s.initialized then Except.error MerchErr.alreadyInitialized
  else
    match ValidationLib.validateName name with
    | Except.error e => Except.error e
    | Except.ok _ =>
      if owner = 0 then Except.error MerchErr.invalidOwner
      else if U256 ≤ s.tokenIdCounter + 1 then Except.error MerchErr.arithmeticOverflow
      else if s.tokenOwner (s.tokenIdCounter + 1) ≠ 0 then
        Except.error MerchErr.mintToExistingToken
      else
        Except.ok
          { s with
            initialized := true
            merchantOwner := owner
            tokenIdCounter := s.tokenIdCounter + 1
            tokenOwner := fun t => if t = s.tokenIdCounter + 1 then owner else s.tokenOwner t
            merchants := fun m =>
              if m = s.tokenIdCounter + 1 then
                { name := name, owner := owner, totalProfit := 0 }
              else s.merchants m }

/-- The state observable after initializeClone under revert semantics. -/
def CoreV2.applyInit (s : CoreState) (name : String) (owner : Nat) : CoreState :=
  match CoreV2.initializeClone s name owner with
  | Except.ok s2 => s2
  | Except.error _ => s

/-- MerchantNPCCoreV2.mintMerchant: guard on the flag, validate the name,
mint the next token and record the merchant data. -/
def CoreV2.mintMerchant (s : CoreState) (toAddr : Nat) (name : String) :
    Except MerchErr (CoreState × Nat) :=
  if !s.initialized then Except.error MerchErr.notInitialized
  else
    match ValidationLib.validateName name with
    | Except.error e => Except.error e
    | Except.ok _ =>
      if U256 ≤ s.tokenIdCounter + 1 then Except.error MerchErr.arithmeticOverflow
      else if toAddr = 0 then Except.error MerchErr.invalidOwner
      else if s.tokenOwner (s.tokenIdCounter + 1) ≠ 0 then
        Except.error MerchErr.mintToExistingToken
      else
        Except.ok
          ({ s with
             tokenIdCounter := s.tokenIdCounter + 1
             tokenOwner := fun t => if t = s.tokenIdCounter + 1 then toAddr else s.tokenOwner t
             merchants := fun m =>
               if m = s.tokenIdCounter + 1 then
                 { name := name, owner := toAddr, totalProfit := 0 }
               else s.merchants m }, s.tokenIdCounter + 1)

/-- MerchantNPCCoreV2.addItem: flag guard, ownerOf authorization, then
InventoryLib.addItem on the merchant's slot. -/
def CoreV2.addItem (s : CoreState) (caller merchantId : Nat) (name : String)
    (price quantity : Nat) : Except MerchErr (CoreState × Nat) :=
  if !s.initialized then Except.error MerchErr.notInitialized
  else
    match s.ownerOf merchantId with
    | Except.error e => Except.error e
    | Except.ok owner =>
      if owner ≠ caller then Except.error MerchErr.notMerchantOwner
      else
        match InventoryLib.addItem (s.inventories merchantId) name price quantity with
        | Except.error e => Except.error e
        | Except.ok (inv2, itemId) =>
          Except.ok
            ({ s with inventories := fun m =>
                if m = merchantId then inv2 else s.inventories m }, itemId)

/-- MerchantNPCCoreV2.restockItem: flag guard, ownerOf authorization, then
InventoryLib.restock. -/
def CoreV2.restockItem (s : CoreState) (caller merchantId itemId quantity : Nat) :
    Except MerchErr CoreState :=
  if !s.initialized then Except.error MerchErr.notInitialized
  else
    match s.ownerOf merchantId with
    | Except.error e => Except.error e
    | Except.ok owner =>
      if owner ≠ caller then Except.error MerchErr.notMerchantOwner
      else
        match InventoryLib.restock (s.inventories merchantId) itemId quantity with
        | Except.error e => Except.error e
        | Except.ok inv2 =>
          Except.ok
            { s with inventories := fun m =>
                if m = merchantId then inv2 else s.inventories m }

/-- MerchantNPCCoreV2.toggleItem: flag guard, ownerOf authorization, then
InventoryLib.toggleActive. -/
def CoreV2.toggleItem (s : CoreState) (caller merchantId itemId : Nat) :
    Except MerchErr CoreState :=
  if !s.initialized then Except.error MerchErr.notInitialized
  else
    match s.ownerOf merchantId with
    | Except.error e => Except.error e
    | Except.ok owner =>
      if owner ≠ caller then Except.error MerchErr.notMerchantOwner
      else
        Except.ok
          { s with inventories := fun m =>
              if m = merchantId then
                InventoryLib.toggleActive (s.inventories merchantId) itemId
              else s.inventories m }

/-- MerchantNPCCoreV2.buyItem: flag guard, then PurchaseLib.processPurchase
on the merchant's slot and data; returns the refund amount. -/
def CoreV2.buyItem (s : CoreState) (merchantId itemId quantity msgValue : Nat) :
    Except MerchErr (CoreState × Nat) :=
  if !s.initialized then Except.error MerchErr.notInitialized
  else
    match PurchaseLib.processPurchase (s.inventories merchantId) (s.merchants merchantId)
        itemId quantity msgValue with
    | Except.error e => Except.error e
    | Except.ok (inv2, m2, _, change) =>
      Except.ok
        ({ s with
           inventories := fun m => if m = merchantId then inv2 else s.inventories m
           merchants := fun m => if m = merchantId then m2 else s.merchants m }, change)

/-- The ledger state observable after buyItem under revert semantics. -/
def CoreV2.applyBuy (s : CoreState) (merchantId itemId quantity msgValue : Nat) : CoreState :=
  match CoreV2.buyItem s merchantId itemId quantity msgValue with
  | Except.ok (s2, _) => s2
  | Except.error _ => s

/-- MerchantNPCCoreV2.withdrawProfit: flag guard, ownerOf authorization,
NoProfit on a zero balance, otherwise zero the balance; the returned Nat is
the amount the code then transfers out. -/
def CoreV2.withdrawProfit (s : CoreState) (caller merchantId : Nat) :
    Except MerchErr (CoreState × Nat) :=
  if !s.initialized then Except.error MerchErr.notInitialized
  else
    match s.ownerOf merchantId with
    | Except.error e => Except.error e
    | Except.ok owner =>
      if owner ≠ caller then Except.error MerchErr.notMerchantOwner
      else
        if (s.merchants merchantId).totalProfit = 0 then Except.error MerchErr.noProfit
        else
          Except.ok
            ({ s with merchants := fun m =>
                if m = merchantId then
                  { s.merchants merchantId with totalProfit := 0 }
                else s.merchants m }, (s.merchants merchantId).totalProfit)

/-- The state observable after withdrawProfit under revert semantics. -/
def CoreV2.applyWithdraw (s : CoreState) (caller merchantId : Nat) : CoreState :=
  match CoreV2.withdrawProfit s caller merchantId with
  | Except.ok (s2, _) => s2
  | Except.error _ => s

/-- The externally callable state-mutating entry points of
MerchantNPCCoreV2, with their call arguments (read accessors are
side-effect-free and are left out). -/
inductive Op where
  | initializeClone (name : String) (owner : Nat)
  | mintMerchant (toAddr : Nat) (name : String)
  | addItem (caller merchantId : Nat) (name : String) (price quantity : Nat)
  | restockItem (caller merchantId itemId quantity : Nat)
  | toggleItem (caller merchantId itemId : Nat)
  | buyItem (merchantId itemId quantity msgValue : Nat)
  | withdrawProfit (caller merchantId : Nat)

/-- Whether an Op is the initialization call. -/
def Op.isInit : Op → Bool
  | Op.initializeClone _ _ => true
  | _ => false

/-- One external call against a MerchantNPCCoreV2 instance, with the
non-state outputs dropped. -/
def step (s : CoreState) : Op → Except MerchErr CoreState
  | Op.initializeClone name owner => CoreV2.initializeClone s name owner
  | Op.mintMerchant toAddr name => (CoreV2.mintMerchant s toAddr name).map Prod.fst
  | Op.addItem caller merchantId name price quantity =>
      (CoreV2.addItem s caller merchantId name price quantity).map Prod.fst
  | Op.restockItem caller merchantId itemId quantity =>
      CoreV2.restockItem s caller merchantId itemId quantity
  | Op.toggleItem caller merchantId itemId => CoreV2.toggleItem s caller merchantId itemId
  | Op.buyItem merchantId itemId quantity msgValue =>
      (CoreV2.buyItem s merchantId itemId quantity msgValue).map Prod.fst
  | Op.withdrawProfit caller merchantId =>
      (CoreV2.withdrawProfit s caller merchantId).map Prod.fst

/-- The state observable after an external call under revert semantics. -/
def applyOp (s : CoreState) (op : Op) : CoreState :=
  match step s op with
  | Except.ok s2 => s2
  | Except.error _ => s

/-- The errors of MerchantFactoryCoreV2. -/
inductive FactoryErr where
  | notAIAgent
  | invalidImplementation
  | initFailed
deriving Repr, DecidableEq

/-- The storage of MerchantFactoryCoreV2: the agent registry, the global
clone list, and the per-creator clone lists (clone contracts are
identified by their abstract addresses). -/
structure FactoryState where
  isAIAgent : Nat → Bool
  allMerchants : List Nat
  merchantsByCreator : Nat → List Nat

/-- A freshly deployed factory: no agents, no clones. -/
def emptyFactory : FactoryState :=
  { isAIAgent := fun _ => false, allMerchants := [], merchantsByCreator := fun _ => [] }

/-- MerchantFactoryCoreV2.registerAIAgent: no authorization check of any
kind; the caller is ignored and the flag is set for the argument. -/
def Factory.registerAIAgent (s : FactoryState) (caller agent : Nat) : FactoryState :=
  { s with isAIAgent := fun a => if a = agent then true else s.isAIAgent a }

/-- MerchantFactoryCoreV2.createMerchant: gate on isAIAgent[msg.sender],
clone the implementation (Clones.clone yields a contract with zeroed
storage, modelled by cloneState, at a fresh environment-chosen address),
call initialize(name, msg.sender) on it and revert InitializationFailed
if that call fails, then record the clone. Returns the new factory state
and the initialized clone's state. -/
def Factory.createMerchant (s : FactoryState) (caller clone : Nat) (name : String) :
    Except FactoryErr (FactoryState × CoreState) :=
  if !s.isAIAgent caller then Except.error FactoryErr.notAIAgent
  else
    match CoreV2.initializeClone cloneState name caller with
    | Except.error _ => Except.error FactoryErr.initFailed
    | Except.ok c =>
      Except.ok
        ({ s with
           allMerchants := s.allMerchants ++ [clone]
           merchantsByCreator := fun x =>
             if x = caller then s.merchantsByCreator caller ++ [clone]
             else s.merchantsByCreator x }, c)

/-- Whether an Except is a success. -/
def exceptOk {e a : Type} : Except e a → Bool
  | Except.ok _ => true
  | Except.error _ => false

/-- A sample inventory: one item, Potion, price 10, five on hand, active. -/
def sampleInv : InventorySlot :=
  { items := fun j => if j = 0 then { name := "Potion", price := 10, quantity := 5, isActive := true } else defaultItem
    itemCount := 1 }

/-- A sample merchant record with no accumulated profit. -/
def sampleMerchant : MerchantData := { name := "Shop", owner := 7, totalProfit := 0 }

/-- A sample inventory whose only item is inactive and out of stock. -/
def inactiveInv : InventorySlot :=
  { items := fun j => if j = 0 then { name := "Relic", price := 5, quantity := 0, isActive := false } else defaultItem
    itemCount := 1 }

/-- An inventory holding an item whose stock sits at the top of the uint256
range. -/
def fullInv : InventorySlot :=
  { items := fun j => if j = 0 then { name := "Dust", price := 1, quantity := U256 - 1, isActive := true } else defaultItem
    itemCount := 1 }

/-- An initialized ledger whose merchant 1, owned by address 9, holds an
accumulated profit of 20. -/
def profitState : CoreState :=
  { initialized := true
    tokenIdCounter := 1
    merchantOwner := 9
    tokenOwner := fun t => if t = 1 then 9 else 0
    merchants := fun m => if m = 1 then { name := "Shop", owner := 9, totalProfit := 20 } else defaultMerchant
    inventories := fun _ => emptyInventory }

theorem setItem_same (inv : InventorySlot) (itemId : Nat) (item : Item) :
    (setItem inv itemId item).items itemId = item := by
  simp [setItem]

theorem setItem_other (inv : InventorySlot) (itemId j : Nat) (item : Item)
    (h : j ≠ itemId) : (setItem inv itemId item).items j = inv.items j := by
  simp [setItem, h]

theorem setItem_count (inv : InventorySlot) (itemId : Nat) (item : Item) :
    (setItem inv itemId item).itemCount = inv.itemCount := rfl

/-- Success characterization of processPurchase, forward direction: all
checks pass, so the call returns the decremented stock, the credited
profit, the total cost and the refund. -/
theorem processPurchase_ok (inv : InventorySlot) (merchant : MerchantData)
    (itemId quantity msgValue : Nat)
    (hAct : (inv.items itemId).isActive = true)
    (hStock : quantity ≤ (inv.items itemId).quantity)
    (hMul : (inv.items itemId).price * quantity < U256)
    (hPay : (inv.items itemId).price * quantity ≤ msgValue)
    (hAdd : merchant.totalProfit + (inv.items itemId).price * quantity < U256) :
    PurchaseLib.processPurchase inv merchant itemId quantity msgValue =
      Except.ok
        (setItem inv itemId
          { inv.items itemId with quantity := (inv.items itemId).quantity - quantity },
         { merchant with
           totalProfit := merchant.totalProfit + (inv.items itemId).price * quantity },
         (inv.items itemId).price * quantity,
         msgValue - (inv.items itemId).price * quantity) := by
  have h1 : ¬((inv.items itemId).isActive = false) := by simp [hAct]
  have h2 : ¬((inv.items itemId).quantity < quantity) := Nat.not_lt.mpr hStock
  have h3 : ¬(U256 ≤ (inv.items itemId).price * quantity) := Nat.not_le.mpr hMul
  have h4 : ¬(msgValue < (inv.items itemId).price * quantity) := Nat.not_lt.mpr hPay
  have h5 : ¬(U256 ≤ merchant.totalProfit + (inv.items itemId).price * quantity) :=
    Nat.not_le.mpr hAdd
  simp only [PurchaseLib.processPurchase, ValidationLib.validateStock,
    ValidationLib.validatePayment, if_neg h1, if_neg h2, if_neg h3, if_neg h4, if_neg h5]

/-- Inversion of a successful processPurchase: the checks must have passed
and the result is exactly the committed purchase. -/
theorem processPurchase_ok_inv {inv : InventorySlot} {merchant : MerchantData}
    {itemId quantity msgValue : Nat} {r : InventorySlot × MerchantData × Nat × Nat}
    (h : PurchaseLib.processPurchase inv merchant itemId quantity msgValue = Except.ok r) :
    (inv.items itemId).isActive = true ∧
    quantity ≤ (inv.items itemId).quantity ∧
    (inv.items itemId).price * quantity ≤ msgValue ∧
    r = (setItem inv itemId
          { inv.items itemId with quantity := (inv.items itemId).quantity - quantity },
         { merchant with
           totalProfit := merchant.totalProfit + (inv.items itemId).price * quantity },
         (inv.items itemId).price * quantity,
         msgValue - (inv.items itemId).price * quantity) := by
  by_cases h1 : (inv.items itemId).isActive = false
  · simp only [PurchaseLib.processPurchase, if_pos h1] at h
    exact Except.noConfusion h
  · by_cases h2 : (inv.items itemId).quantity < quantity
    · simp only [PurchaseLib.processPurchase, ValidationLib.validateStock,
        if_neg h1, if_pos h2] at h
      exact Except.noConfusion h
    · by_cases h3 : U256 ≤ (inv.items itemId).price * quantity
      · simp only [PurchaseLib.processPurchase, ValidationLib.validateStock,
          if_neg h1, if_neg h2, if_pos h3] at h
        exact Except.noConfusion h
      · by_cases h4 : msgValue < (inv.items itemId).price * quantity
        · simp only [PurchaseLib.processPurchase, ValidationLib.validateStock,
            ValidationLib.validatePayment, if_neg h1, if_neg h2, if_neg h3, if_pos h4] at h
          exact Except.noConfusion h
        · by_cases h5 : U256 ≤ merchant.totalProfit + (inv.items itemId).price * quantity
          · simp only [PurchaseLib.processPurchase, ValidationLib.validateStock,
              ValidationLib.validatePayment, if_neg h1, if_neg h2, if_neg h3, if_neg h4,
              if_pos h5] at h
            exact Except.noConfusion h
          · simp only [PurchaseLib.processPurchase, ValidationLib.validateStock,
              ValidationLib.validatePayment, if_neg h1, if_neg h2, if_neg h3, if_neg h4,
              if_neg h5, Except.ok.injEq] at h
            refine ⟨by simpa using h1, Nat.not_lt.mp h2, Nat.not_lt.mp h4, h.symm⟩

/-- C2: for every successful buy of quantity n of an item with unit price
p, the profit after equals the profit before plus p * n exactly, and the
on-hand quantity after equals the quantity before minus n; both updates
are part of the one committed result of processPurchase (a single atomic
step under revert semantics). -/
theorem buy_profit_reconciliation (inv : InventorySlot) (merchant : MerchantData)
    (itemId quantity msgValue : Nat) (inv2 : InventorySlot) (m2 : MerchantData)
    (totalCost change : Nat)
    (h : PurchaseLib.processPurchase inv merchant itemId quantity msgValue =
      Except.ok (inv2, m2, totalCost, change)) :
    totalCost = (inv.items itemId).price * quantity ∧
    m2.totalProfit = merchant.totalProfit + (inv.items itemId).price * quantity ∧
    (inv2.items itemId).quantity = (inv.items itemId).quantity - quantity ∧
    (inv2.items itemId).quantity + quantity = (inv.items itemId).quantity := by
  obtain ⟨-, hStock, -, hr⟩ := processPurchase_ok_inv h
  simp only [Prod.mk.injEq] at hr
  obtain ⟨hinv, hm, hc, -⟩ := hr
  subst hinv hm hc
  refine ⟨rfl, rfl, ?_, ?_⟩
  · rw [setItem_same]
  · rw [setItem_same]
    exact Nat.sub_add_cancel hStock

/-- Witness for C2: buying 2 Potions at price 10 with 25 tendered turns a
profit of 0 into 20 and a stock of 5 into 3. -/
theorem buy_profit_reconciliation_witness :
    20 = (sampleInv.items 0).price * 2 ∧
    ({ name := "Shop", owner := 7, totalProfit := 20 } : MerchantData).totalProfit =
      sampleMerchant.totalProfit + (sampleInv.items 0).price * 2 ∧
    ((setItem sampleInv 0 { name := "Potion", price := 10, quantity := 3, isActive := true }).items 0).quantity =
      (sampleInv.items 0).quantity - 2 ∧
    ((setItem sampleInv 0 { name := "Potion", price := 10, quantity := 3, isActive := true }).items 0).quantity + 2 =
      (sampleInv.items 0).quantity :=
  buy_profit_reconciliation sampleInv sampleMerchant 0 2 25
    (setItem sampleInv 0 { name := "Potion", price := 10, quantity := 3, isActive := true })
    { name := "Shop", owner := 7, totalProfit := 20 } 20 5 rfl

/-- C5: whenever the tendered amount covers the total cost and the other
preconditions of the purchase hold (active item, sufficient stock, no
overflow of cost or profit), the buy succeeds and the refund returned to
the buyer is exactly tenderedAmount - totalCost; in particular buying 2 of
a price-10 item with 25 tendered succeeds with change 5, final stock 3 and
profit 20. -/
theorem buy_change_returned (inv : InventorySlot) (merchant : MerchantData)
    (itemId quantity msgValue : Nat) :
    ((inv.items itemId).isActive = true →
     quantity ≤ (inv.items itemId).quantity →
     (inv.items itemId).price * quantity < U256 →
     merchant.totalProfit + (inv.items itemId).price * quantity < U256 →
     (inv.items itemId).price * quantity ≤ msgValue →
     PurchaseLib.processPurchase inv merchant itemId quantity msgValue =
       Except.ok
         (setItem inv itemId
           { inv.items itemId with quantity := (inv.items itemId).quantity - quantity },
          { merchant with
            totalProfit := merchant.totalProfit + (inv.items itemId).price * quantity },
          (inv.items itemId).price * quantity,
          msgValue - (inv.items itemId).price * quantity)) ∧
    PurchaseLib.processPurchase sampleInv sampleMerchant 0 2 25 =
      Except.ok
        (setItem sampleInv 0 { name := "Potion", price := 10, quantity := 3, isActive := true },
         { name := "Shop", owner := 7, totalProfit := 20 }, 20, 5) := by
  refine ⟨fun hA hS hM hB hP => processPurchase_ok inv merchant itemId quantity msgValue
    hA hS hM hP hB, rfl⟩

/-- Witness for C5: buying one Potion with exact payment 10 succeeds with
change 0. -/
theorem buy_change_returned_witness :
    PurchaseLib.processPurchase sampleInv sampleMerchant 0 1 10 =
      Except.ok
        (setItem sampleInv 0 { sampleInv.items 0 with quantity := (sampleInv.items 0).quantity - 1 },
         { sampleMerchant with
           totalProfit := sampleMerchant.totalProfit + (sampleInv.items 0).price * 1 },
         (sampleInv.items 0).price * 1, 10 - (sampleInv.items 0).price * 1) :=
  (buy_change_returned sampleInv sampleMerchant 0 1 10).1 rfl (by decide) (by decide)
    (by decide) (by decide)

/-- Counterexample for C1 as stated: a buy requesting more than the on-hand
quantity of an item that is also inactive fails with ItemNotActive, not
with InsufficientStock (the active-flag check runs first). -/
theorem buy_oversell_inactive_cex :
    (inactiveInv.items 0).quantity < 1 ∧
    PurchaseLib.processPurchase inactiveInv sampleMerchant 0 1 5 =
      Except.error MerchErr.itemNotActive ∧
    PurchaseLib.processPurchase inactiveInv sampleMerchant 0 1 5 ≠
      Except.error MerchErr.insufficientStock := by
  refine ⟨by decide, rfl, ?_⟩
  intro hc
  rw [show PurchaseLib.processPurchase inactiveInv sampleMerchant 0 1 5 =
    Except.error MerchErr.itemNotActive from rfl] at hc
  simp at hc

/-- C1 as amended: a buy of an ACTIVE item requesting more than the
on-hand quantity fails with InsufficientStock, and every failing buy —
whatever its error (inactive item, insufficient stock, overflow,
insufficient payment, uninitialized instance) — leaves the inventory, the
merchant's profit, and the whole ledger state unchanged under revert
semantics. -/
theorem buy_failure_rollback (inv : InventorySlot) (merchant : MerchantData)
    (merchantId itemId quantity msgValue : Nat) :
    ((inv.items itemId).isActive = true → (inv.items itemId).quantity < quantity →
      PurchaseLib.processPurchase inv merchant itemId quantity msgValue =
        Except.error MerchErr.insufficientStock) ∧
    (∀ e, PurchaseLib.processPurchase inv merchant itemId quantity msgValue =
        Except.error e →
      PurchaseLib.applyPurchase inv merchant itemId quantity msgValue = (inv, merchant)) ∧
    (∀ (s : CoreState) e,
      CoreV2.buyItem s merchantId itemId quantity msgValue = Except.error e →
      CoreV2.applyBuy s merchantId itemId quantity msgValue = s) := by
  refine ⟨?_, ?_, ?_⟩
  · intro hA hS
    have h1 : ¬((inv.items itemId).isActive = false) := by simp [hA]
    simp only [PurchaseLib.processPurchase, ValidationLib.validateStock, if_neg h1, if_pos hS]
  · intro e he
    simp only [PurchaseLib.applyPurchase, he]
  · intro s e he
    simp only [CoreV2.applyBuy, he]

/-- Witness for the amended C1: requesting 10 of an active item with 5 on
hand fails with InsufficientStock (the state-unchanged spec example). -/
theorem buy_failure_rollback_witness :
    PurchaseLib.processPurchase sampleInv sampleMerchant 0 10 100 =
      Except.error MerchErr.insufficientStock :=
  (buy_failure_rollback sampleInv sampleMerchant 1 0 10 100).1 rfl (by decide)

/-- C6: processPurchase runs its checks in the order active flag
(ItemNotActive), stock (InsufficientStock), overflow-checked
totalCost = price * quantity (arithmetic overflow panic, with zero state
mutation), then payment (InsufficientPayment); the error reported is that
of the first failing check. -/
theorem buy_check_order (inv : InventorySlot) (merchant : MerchantData)
    (itemId quantity msgValue : Nat) :
    ((inv.items itemId).isActive = false →
      PurchaseLib.processPurchase inv merchant itemId quantity msgValue =
        Except.error MerchErr.itemNotActive) ∧
    ((inv.items itemId).isActive = true → (inv.items itemId).quantity < quantity →
      PurchaseLib.processPurchase inv merchant itemId quantity msgValue =
        Except.error MerchErr.insufficientStock) ∧
    ((inv.items itemId).isActive = true → quantity ≤ (inv.items itemId).quantity →
      U256 ≤ (inv.items itemId).price * quantity →
      PurchaseLib.processPurchase inv merchant itemId quantity msgValue =
        Except.error MerchErr.arithmeticOverflow ∧
      PurchaseLib.applyPurchase inv merchant itemId quantity msgValue = (inv, merchant)) ∧
    ((inv.items itemId).isActive = true → quantity ≤ (inv.items itemId).quantity →
      (inv.items itemId).price * quantity < U256 →
      msgValue < (inv.items itemId).price * quantity →
      PurchaseLib.processPurchase inv merchant itemId quantity msgValue =
        Except.error MerchErr.insufficientPayment) := by
  refine ⟨?_, ?_, ?_, ?_⟩
  · intro h1
    simp only [PurchaseLib.processPurchase, if_pos h1]
  · intro hA h2
    have h1 : ¬((inv.items itemId).isActive = false) := by simp [hA]
    simp only [PurchaseLib.processPurchase, ValidationLib.validateStock, if_neg h1, if_pos h2]
  · intro hA hS h3
    have h1 : ¬((inv.items itemId).isActive = false) := by simp [hA]
    have h2 : ¬((inv.items itemId).quantity < quantity) := Nat.not_lt.mpr hS
    have he : PurchaseLib.processPurchase inv merchant itemId quantity msgValue =
        Except.error MerchErr.arithmeticOverflow := by
      simp only [PurchaseLib.processPurchase, ValidationLib.validateStock,
        if_neg h1, if_neg h2, if_pos h3]
    exact ⟨he, by simp only [PurchaseLib.applyPurchase, he]⟩
  · intro hA hS h3 h4
    have h1 : ¬((inv.items itemId).isActive = false) := by simp [hA]
    have h2 : ¬((inv.items itemId).quantity < quantity) := Nat.not_lt.mpr hS
    have h3n : ¬(U256 ≤ (inv.items itemId).price * quantity) := Nat.not_le.mpr h3
    simp only [PurchaseLib.processPurchase, ValidationLib.validateStock,
      ValidationLib.validatePayment, if_neg h1, if_neg h2, if_neg h3n, if_pos h4]

/-- Witness for C6: an active item with enough stock but an underpaying
buyer fails with the payment error, the last of the four checks. -/
theorem buy_check_order_witness :
    PurchaseLib.processPurchase sampleInv sampleMerchant 0 2 5 =
      Except.error MerchErr.insufficientPayment :=
  (buy_check_order sampleInv sampleMerchant 0 2 5).2.2.2 rfl (by decide) (by decide) (by decide)

/-- Counterexample for C8 as stated: with the item's stock at the top of
the uint256 range, restocking by 1 does not add to the quantity — the
checked addition overflows and the call reverts. -/
theorem restock_overflow_cex :
    (0 : Nat) < 1 ∧
    InventoryLib.restock fullInv 0 1 = Except.error MerchErr.arithmeticOverflow := by
  have h1 : (1 : Nat) ≤ U256 := by unfold U256; exact Nat.one_le_two_pow
  have h : U256 ≤ (fullInv.items 0).quantity + 1 := by
    rw [show (fullInv.items 0).quantity = U256 - 1 from rfl, Nat.sub_add_cancel h1]
  exact ⟨Nat.one_pos, by
    simp only [InventoryLib.restock, ValidationLib.validateQuantity,
      if_neg (by decide : ¬((1 : Nat) = 0)), if_pos h]⟩

/-- C8 as amended: for every item and additionalQuantity > 0 whose sum
with the existing quantity stays below 2 ^ 256, restock adds
additionalQuantity to the existing quantity and leaves the active flag,
price and name unchanged (and every other item untouched); restock of 0
fails with InvalidQuantity. -/
theorem restock_adds_quantity (inv : InventorySlot) (itemId addQty : Nat) :
    (0 < addQty → (inv.items itemId).quantity + addQty < U256 →
      InventoryLib.restock inv itemId addQty =
        Except.ok (setItem inv itemId
          { inv.items itemId with quantity := (inv.items itemId).quantity + addQty }) ∧
      ((setItem inv itemId
          { inv.items itemId with
            quantity := (inv.items itemId).quantity + addQty }).items itemId).quantity =
        (inv.items itemId).quantity + addQty ∧
      ((setItem inv itemId
          { inv.items itemId with
            quantity := (inv.items itemId).quantity + addQty }).items itemId).isActive =
        (inv.items itemId).isActive ∧
      ((setItem inv itemId
          { inv.items itemId with
            quantity := (inv.items itemId).quantity + addQty }).items itemId).price =
        (inv.items itemId).price ∧
      ((setItem inv itemId
          { inv.items itemId with
            quantity := (inv.items itemId).quantity + addQty }).items itemId).name =
        (inv.items itemId).name ∧
      (∀ j, j ≠ itemId →
        (setItem inv itemId
          { inv.items itemId with
            quantity := (inv.items itemId).quantity + addQty }).items j = inv.items j)) ∧
    InventoryLib.restock inv itemId 0 = Except.error MerchErr.invalidQuantity := by
  constructor
  · intro hq hU
    have h0 : ¬(addQty = 0) := Nat.pos_iff_ne_zero.mp hq
    have hn : ¬(U256 ≤ (inv.items itemId).quantity + addQty) := Nat.not_le.mpr hU
    refine ⟨?_, ?_, ?_, ?_, ?_, ?_⟩
    · simp only [InventoryLib.restock, ValidationLib.validateQuantity, if_neg h0, if_neg hn]
    · rw [setItem_same]
    · rw [setItem_same]
    · rw [setItem_same]
    · rw [setItem_same]
    · intro j hj
      exact setItem_other inv itemId j _ hj
  · simp [InventoryLib.restock, ValidationLib.validateQuantity]

/-- Witness for the amended C8: restocking the Potion by 7 raises its
stock from 5 to 12 and leaves it active. -/
theorem restock_adds_quantity_witness :
    InventoryLib.restock sampleInv 0 7 =
      Except.ok (setItem sampleInv 0
        { sampleInv.items 0 with quantity := (sampleInv.items 0).quantity + 7 }) ∧
    ((setItem sampleInv 0
        { sampleInv.items 0 with
          quantity := (sampleInv.items 0).quantity + 7 }).items 0).isActive =
      (sampleInv.items 0).isActive :=
  ⟨((restock_adds_quantity sampleInv 0 7).1 (by decide) (by decide)).1,
   ((restock_adds_quantity sampleInv 0 7).1 (by decide) (by decide)).2.2.1⟩

/-- C10: restock and toggleActive never check that an item was added. In
any state whose slots at or beyond itemCount are unwritten (the invariant
addItem maintains — its ids are always below the new itemCount, last
conjunct), restocking such an id with q > 0 succeeds and leaves a readable
default-slot item with quantity q, price 0, empty name and active = false,
and toggleActive on such an id succeeds and flips the default flag to
true; no not-found error exists for either. -/
theorem restock_toggle_default_slot (inv : InventorySlot) (itemId q : Nat)
    (hBound : ∀ j, inv.itemCount ≤ j → inv.items j = defaultItem)
    (hId : inv.itemCount ≤ itemId) (hq : 0 < q) (hU : q < U256) :
    InventoryLib.restock inv itemId q =
      Except.ok (setItem inv itemId { defaultItem with quantity := q }) ∧
    ((setItem inv itemId { defaultItem with quantity := q }).items itemId).name = "" ∧
    ((setItem inv itemId { defaultItem with quantity := q }).items itemId).price = 0 ∧
    ((setItem inv itemId { defaultItem with quantity := q }).items itemId).quantity = q ∧
    ((setItem inv itemId { defaultItem with quantity := q }).items itemId).isActive = false ∧
    ((InventoryLib.toggleActive inv itemId).items itemId).isActive = true ∧
    (∀ name price qty inv2 newId,
      InventoryLib.addItem inv name price qty = Except.ok (inv2, newId) →
      newId < inv2.itemCount ∧ ∀ j, inv2.itemCount ≤ j → inv2.items j = defaultItem) := by
  have hd : inv.items itemId = defaultItem := hBound itemId hId
  have h0 : ¬(q = 0) := Nat.pos_iff_ne_zero.mp hq
  have hn : ¬(U256 ≤ (inv.items itemId).quantity + q) := by
    rw [hd]
    simpa [defaultItem] using Nat.not_le.mpr hU
  refine ⟨?_, ?_, ?_, ?_, ?_, ?_, ?_⟩
  · simp only [InventoryLib.restock, ValidationLib.validateQuantity, if_neg h0, if_neg hn]
    rw [hd]
    simp [defaultItem]
  · simp [setItem_same, defaultItem]
  · simp [setItem_same, defaultItem]
  · simp [setItem_same, defaultItem]
  · simp [setItem_same, defaultItem]
  · simp [InventoryLib.toggleActive, setItem_same, hd, defaultItem]
  · intro name price qty inv2 newId h
    by_cases hn1 : name = ""
    · simp only [InventoryLib.addItem, ValidationLib.validateName, if_pos hn1] at h
      exact Except.noConfusion h
    · by_cases hp : price = 0
      · simp only [InventoryLib.addItem, ValidationLib.validateName,
          ValidationLib.validatePrice, if_neg hn1, if_pos hp] at h
        exact Except.noConfusion h
      · by_cases hq2 : qty = 0
        · simp only [InventoryLib.addItem, ValidationLib.validateName,
            ValidationLib.validatePrice, ValidationLib.validateQuantity,
            if_neg hn1, if_neg hp, if_pos hq2] at h
          exact Except.noConfusion h
        · by_cases hc : U256 ≤ inv.itemCount + 1
          · simp only [InventoryLib.addItem, ValidationLib.validateName,
              ValidationLib.validatePrice, ValidationLib.validateQuantity,
              if_neg hn1, if_neg hp, if_neg hq2, if_pos hc] at h
            exact Except.noConfusion h
          · simp only [InventoryLib.addItem, ValidationLib.validateName,
              ValidationLib.validatePrice, ValidationLib.validateQuantity,
              if_neg hn1, if_neg hp, if_neg hq2, if_neg hc, Except.ok.injEq,
              Prod.mk.injEq] at h
            obtain ⟨hinv2, hid⟩ := h
            subst hid
            constructor
            · rw [← hinv2]
              exact Nat.lt_succ_self inv.itemCount
            · intro j hj
              rw [← hinv2] at hj ⊢
              have hj1 : inv.itemCount + 1 ≤ j := hj
              have hjne : j ≠ inv.itemCount := by omega
              show (setItem inv inv.itemCount
                { name := name, price := price, quantity := qty, isActive := true }).items j =
                defaultItem
              rw [setItem_other inv inv.itemCount j _ hjne]
              exact hBound j (by omega)

/-- Witness for C10: in a fresh empty inventory, restocking the never
added id 3 by 7 succeeds and toggling id 3 activates the default slot. -/
theorem restock_toggle_default_slot_witness :
    InventoryLib.restock emptyInventory 3 7 =
      Except.ok (setItem emptyInventory 3 { defaultItem with quantity := 7 }) ∧
    ((InventoryLib.toggleActive emptyInventory 3).items 3).isActive = true :=
  ⟨(restock_toggle_default_slot emptyInventory 3 7 (fun _ _ => rfl) (by decide) (by decide)
      (by decide)).1,
   (restock_toggle_default_slot emptyInventory 3 7 (fun _ _ => rfl) (by decide) (by decide)
      (by decide)).2.2.2.2.2.1⟩

/-- While the flag is down, every entry point other than the
initialization call fails with NotInitialized. -/
theorem step_uninit_fails (s : CoreState) (op : Op)
    (h0 : s.initialized = false) (hni : op.isInit = false) :
    step s op = Except.error MerchErr.notInitialized := by
  cases op with
  | initializeClone name owner => simp [Op.isInit] at hni
  | mintMerchant toAddr name => simp [step, CoreV2.mintMerchant, h0, Except.map]
  | addItem c m n p q => simp [step, CoreV2.addItem, h0, Except.map]
  | restockItem c m i q => simp [step, CoreV2.restockItem, h0]
  | toggleItem c m i => simp [step, CoreV2.toggleItem, h0]
  | buyItem m i q v => simp [step, CoreV2.buyItem, h0, Except.map]
  | withdrawProfit c m => simp [step, CoreV2.withdrawProfit, h0, Except.map]

theorem initializeClone_ok_init {s : CoreState} {name : String} {owner : Nat}
    {s2 : CoreState} (h : CoreV2.initializeClone s name owner = Except.ok s2) :
    s2.initialized = true := by
  cases h0 : s.initialized with
  | true => simp [CoreV2.initializeClone, h0] at h
  | false =>
    simp only [CoreV2.initializeClone, ValidationLib.validateName, h0, Bool.false_eq_true,
      if_false] at h
    repeat' split at h
    all_goals try exact Except.noConfusion h
    all_goals simp only [Except.ok.injEq] at h
    all_goals (rw [← h]; try rfl)

theorem mintMerchant_ok_init {s : CoreState} {toAddr : Nat} {name : String}
    {s2 : CoreState} {tid : Nat}
    (h : CoreV2.mintMerchant s toAddr name = Except.ok (s2, tid)) :
    s2.initialized = true := by
  cases h0 : s.initialized with
  | false => simp [CoreV2.mintMerchant, h0] at h
  | true =>
    simp only [CoreV2.mintMerchant, ValidationLib.validateName, h0, Bool.not_true,
      Bool.false_eq_true, if_false] at h
    repeat' split at h
    all_goals try exact Except.noConfusion h
    all_goals simp only [Except.ok.injEq, Prod.mk.injEq] at h
    all_goals (rw [← h.1]; try rfl)

theorem addItem_ok_init {s : CoreState} {c m : Nat} {n : String} {p q : Nat}
    {s2 : CoreState} {i : Nat}
    (h : CoreV2.addItem s c m n p q = Except.ok (s2, i)) : s2.initialized = true := by
  cases h0 : s.initialized with
  | false => simp [CoreV2.addItem, h0] at h
  | true =>
    simp only [CoreV2.addItem, h0, Bool.not_true, Bool.false_eq_true, if_false] at h
    repeat' split at h
    all_goals try exact Except.noConfusion h
    all_goals simp only [Except.ok.injEq, Prod.mk.injEq] at h
    all_goals (rw [← h.1]; try exact h0)

theorem restockItem_ok_init {s : CoreState} {c m i q : Nat} {s2 : CoreState}
    (h : CoreV2.restockItem s c m i q = Except.ok s2) : s2.initialized = true := by
  cases h0 : s.initialized with
  | false => simp [CoreV2.restockItem, h0] at h
  | true =>
    simp only [CoreV2.restockItem, h0, Bool.not_true, Bool.false_eq_true, if_false] at h
    repeat' split at h
    all_goals try exact Except.noConfusion h
    all_goals simp only [Except.ok.injEq] at h
    all_goals (rw [← h]; try exact h0)

theorem toggleItem_ok_init {s : CoreState} {c m i : Nat} {s2 : CoreState}
    (h : CoreV2.toggleItem s c m i = Except.ok s2) : s2.initialized = true := by
  cases h0 : s.initialized with
  | false => simp [CoreV2.toggleItem, h0] at h
  | true =>
    simp only [CoreV2.toggleItem, h0, Bool.not_true, Bool.false_eq_true, if_false] at h
    repeat' split at h
    all_goals try exact Except.noConfusion h
    all_goals simp only [Except.ok.injEq] at h
    all_goals (rw [← h]; try exact h0)

theorem buyItem_ok_init {s : CoreState} {m i q v : Nat} {s2 : CoreState} {ch : Nat}
    (h : CoreV2.buyItem s m i q v = Except.ok (s2, ch)) : s2.initialized = true := by
  cases h0 : s.initialized with
  | false => simp [CoreV2.buyItem, h0] at h
  | true =>
    simp only [CoreV2.buyItem, h0, Bool.not_true, Bool.false_eq_true, if_false] at h
    repeat' split at h
    all_goals try exact Except.noConfusion h
    all_goals simp only [Except.ok.injEq, Prod.mk.injEq] at h
    all_goals (rw [← h.1]; try exact h0)

theorem withdrawProfit_ok_init {s : CoreState} {c m : Nat} {s2 : CoreState} {amt : Nat}
    (h : CoreV2.withdrawProfit s c m = Except.ok (s2, amt)) : s2.initialized = true := by
  cases h0 : s.initialized with
  | false => simp [CoreV2.withdrawProfit, h0] at h
  | true =>
    simp only [CoreV2.withdrawProfit, h0, Bool.not_true, Bool.false_eq_true, if_false] at h
    repeat' split at h
    all_goals try exact Except.noConfusion h
    all_goals simp only [Except.ok.injEq, Prod.mk.injEq] at h
    all_goals (rw [← h.1]; try exact h0)

/-- Every successful external call leaves the flag up: the initialization
call raises it, and every other call requires it and never writes it. -/
theorem step_ok_initialized (s : CoreState) (op : Op) (s2 : CoreState)
    (h : step s op = Except.ok s2) : s2.initialized = true := by
  cases op with
  | initializeClone name owner => exact initializeClone_ok_init h
  | mintMerchant toAddr name =>
    simp only [step] at h
    cases hm : CoreV2.mintMerchant s toAddr name with
    | error e => rw [hm] at h; simp [Except.map] at h
    | ok p =>
      obtain ⟨s3, tid⟩ := p
      rw [hm] at h
      simp only [Except.map, Except.ok.injEq] at h
      rw [← h]
      exact mintMerchant_ok_init hm
  | addItem c m n p q =>
    simp only [step] at h
    cases hm : CoreV2.addItem s c m n p q with
    | error e => rw [hm] at h; simp [Except.map] at h
    | ok pr =>
      obtain ⟨s3, i⟩ := pr
      rw [hm] at h
      simp only [Except.map, Except.ok.injEq] at h
      rw [← h]
      exact addItem_ok_init hm
  | restockItem c m i q => exact restockItem_ok_init h
  | toggleItem c m i => exact toggleItem_ok_init h
  | buyItem m i q v =>
    simp only [step] at h
    cases hm : CoreV2.buyItem s m i q v with
    | error e => rw [hm] at h; simp [Except.map] at h
    | ok pr =>
      obtain ⟨s3, ch⟩ := pr
      rw [hm] at h
      simp only [Except.map, Except.ok.injEq] at h
      rw [← h]
      exact buyItem_ok_init hm
  | withdrawProfit c m =>
    simp only [step] at h
    cases hm : CoreV2.withdrawProfit s c m with
    | error e => rw [hm] at h; simp [Except.map] at h
    | ok pr =>
      obtain ⟨s3, amt⟩ := pr
      rw [hm] at h
      simp only [Except.map, Except.ok.injEq] at h
      rw [← h]
      exact withdrawProfit_ok_init hm

/-- C4: while initialized is false, no state-mutating entry point other
than the initialization call can run — each fails with NotInitialized and
leaves the state unchanged; the initialization call cannot run while
initialized is true; the template built by the constructor starts with
initialized already true; and a successful call always ends with
initialized true while an uninitialized state only steps successfully
through the initialization call — so the flag goes false to true exactly
once per clone. -/
theorem init_flag_lifecycle (s : CoreState) (op : Op) :
    (s.initialized = false → Op.isInit op = false →
      step s op = Except.error MerchErr.notInitialized ∧ applyOp s op = s) ∧
    (∀ name owner, s.initialized = true →
      step s (Op.initializeClone name owner) = Except.error MerchErr.alreadyInitialized) ∧
    templateState.initialized = true ∧
    (∀ s2, step s op = Except.ok s2 → s2.initialized = true) ∧
    (s.initialized = false → ∀ s2, step s op = Except.ok s2 → Op.isInit op = true) := by
  refine ⟨?_, ?_, rfl, ?_, ?_⟩
  · intro h0 hni
    have he := step_uninit_fails s op h0 hni
    exact ⟨he, by simp only [applyOp, he]⟩
  · intro name owner h1
    simp [step, CoreV2.initializeClone, h1]
  · intro s2 h
    exact step_ok_initialized s op s2 h
  · intro h0 s2 hok
    cases hni : Op.isInit op with
    | true => rfl
    | false =>
      rw [step_uninit_fails s op h0 hni] at hok
      exact Except.noConfusion hok

/-- Witness for C4: a buy against an uninitialized clone fails with
NotInitialized and leaves the clone state untouched. -/
theorem init_flag_lifecycle_witness :
    step cloneState (Op.buyItem 1 0 1 10) = Except.error MerchErr.notInitialized ∧
    applyOp cloneState (Op.buyItem 1 0 1 10) = cloneState :=
  (init_flag_lifecycle cloneState (Op.buyItem 1 0 1 10)).1 rfl rfl

/-- A failed initialization leaves the observable state unchanged. -/
theorem applyInit_of_error {t : CoreState} {n : String} {o : Nat} {e : MerchErr}
    (h : CoreV2.initializeClone t n o = Except.error e) : CoreV2.applyInit t n o = t := by
  simp only [CoreV2.applyInit, h]

/-- C3: on any uninitialized instance, the first initialization call with
a non-empty name and a non-zero owner succeeds, raises the flag, and mints
the first bound merchant record; a second initialization call then fails
with AlreadyInitialized, and the state after the failed second call is
exactly the state after the first. -/
theorem double_init_rejected (s : CoreState) (name : String) (owner : Nat)
    (h0 : s.initialized = false) (h1 : name ≠ "") (h2 : owner ≠ 0)
    (h3 : s.tokenOwner (s.tokenIdCounter + 1) = 0) (h4 : s.tokenIdCounter + 1 < U256) :
    CoreV2.initializeClone s name owner = Except.ok (CoreV2.applyInit s name owner) ∧
    (CoreV2.applyInit s name owner).initialized = true ∧
    (CoreV2.applyInit s name owner).merchants (s.tokenIdCounter + 1) =
      { name := name, owner := owner, totalProfit := 0 } ∧
    (CoreV2.applyInit s name owner).tokenOwner (s.tokenIdCounter + 1) = owner ∧
    (∀ name2 owner2,
      CoreV2.initializeClone (CoreV2.applyInit s name owner) name2 owner2 =
        Except.error MerchErr.alreadyInitialized) ∧
    (∀ name2 owner2,
      CoreV2.applyInit (CoreV2.applyInit s name owner) name2 owner2 =
        CoreV2.applyInit s name owner) := by
  have hok : CoreV2.initializeClone s name owner =
      Except.ok
        { s with
          initialized := true
          merchantOwner := owner
          tokenIdCounter := s.tokenIdCounter + 1
          tokenOwner := fun t => if t = s.tokenIdCounter + 1 then owner else s.tokenOwner t
          merchants := fun m =>
            if m = s.tokenIdCounter + 1 then { name := name, owner := owner, totalProfit := 0 }
            else s.merchants m } := by
    simp [CoreV2.initializeClone, ValidationLib.validateName, h0, h1, h2, h3,
      Nat.not_le.mpr h4]
  have happ : CoreV2.applyInit s name owner =
      { s with
        initialized := true
        merchantOwner := owner
        tokenIdCounter := s.tokenIdCounter + 1
        tokenOwner := fun t => if t = s.tokenIdCounter + 1 then owner else s.tokenOwner t
        merchants := fun m =>
          if m = s.tokenIdCounter + 1 then { name := name, owner := owner, totalProfit := 0 }
          else s.merchants m } := by
    simp only [CoreV2.applyInit, hok]
  have hsecond : ∀ name2 owner2,
      CoreV2.initializeClone (CoreV2.applyInit s name owner) name2 owner2 =
        Except.error MerchErr.alreadyInitialized := by
    intro name2 owner2
    rw [happ]
    simp [CoreV2.initializeClone]
  refine ⟨?_, ?_, ?_, ?_, hsecond, ?_⟩
  · rw [hok, happ]
  · rw [happ]
  · rw [happ]
    simp
  · rw [happ]
    simp
  · intro name2 owner2
    exact applyInit_of_error (hsecond name2 owner2)

/-- Witness for C3: initializing a fresh clone as Shop owned by address 1
succeeds and flips the flag; initializing again as Other fails with
AlreadyInitialized. -/
theorem double_init_rejected_witness :
    cloneState.initialized = false ∧
    (CoreV2.applyInit cloneState "Shop" 1).initialized = true ∧
    CoreV2.initializeClone (CoreV2.applyInit cloneState "Shop" 1) "Other" 2 =
      Except.error MerchErr.alreadyInitialized :=
  ⟨rfl,
   (double_init_rejected cloneState "Shop" 1 rfl (by decide) (by decide) rfl
      (by unfold U256; exact Nat.one_lt_two_pow_iff.mpr (by decide))).2.1,
   (double_init_rejected cloneState "Shop" 1 rfl (by decide) (by decide) rfl
      (by unfold U256; exact Nat.one_lt_two_pow_iff.mpr (by decide))).2.2.2.2.1 "Other" 2⟩

/-- C7: for an initialized instance and the authorized owner, the
withdrawal fails with NoProfit exactly when the accumulated balance is
zero; otherwise it succeeds, zeroes the balance and pays out exactly the
full prior balance; and any successful withdrawal followed immediately by
another one fails with NoProfit. -/
theorem withdraw_profit_spec (s : CoreState) (caller merchantId : Nat)
    (hInit : s.initialized = true) (hOwn : s.tokenOwner merchantId = caller)
    (hNz : caller ≠ 0) :
    (CoreV2.withdrawProfit s caller merchantId = Except.error MerchErr.noProfit ↔
      (s.merchants merchantId).totalProfit = 0) ∧
    ((s.merchants merchantId).totalProfit ≠ 0 →
      CoreV2.withdrawProfit s caller merchantId =
        Except.ok (CoreV2.applyWithdraw s caller merchantId,
          (s.merchants merchantId).totalProfit) ∧
      ((CoreV2.applyWithdraw s caller merchantId).merchants merchantId).totalProfit = 0) ∧
    (∀ s2 amt, CoreV2.withdrawProfit s caller merchantId = Except.ok (s2, amt) →
      amt = (s.merchants merchantId).totalProfit ∧
      CoreV2.withdrawProfit s2 caller merchantId = Except.error MerchErr.noProfit) := by
  have hOwnerOf : s.ownerOf merchantId = Except.ok caller := by
    simp [CoreState.ownerOf, hOwn, hNz]
  have hred : CoreV2.withdrawProfit s caller merchantId =
      if (s.merchants merchantId).totalProfit = 0 then Except.error MerchErr.noProfit
      else
        Except.ok
          ({ s with merchants := fun m =>
              if m = merchantId then { s.merchants merchantId with totalProfit := 0 }
              else s.merchants m }, (s.merchants merchantId).totalProfit) := by
    simp [CoreV2.withdrawProfit, hInit, hOwnerOf]
  refine ⟨⟨?_, ?_⟩, ?_, ?_⟩
  · intro he
    by_contra hp
    rw [hred, if_neg hp] at he
    exact Except.noConfusion he
  · intro hp
    rw [hred, if_pos hp]
  · intro hp
    have hok : CoreV2.withdrawProfit s caller merchantId =
        Except.ok
          ({ s with merchants := fun m =>
              if m = merchantId then { s.merchants merchantId with totalProfit := 0 }
              else s.merchants m }, (s.merchants merchantId).totalProfit) := by
      rw [hred, if_neg hp]
    have happ : CoreV2.applyWithdraw s caller merchantId =
        { s with merchants := fun m =>
            if m = merchantId then { s.merchants merchantId with totalProfit := 0 }
            else s.merchants m } := by
      simp only [CoreV2.applyWithdraw, hok]
    refine ⟨by rw [hok, happ], ?_⟩
    rw [happ]
    simp
  · intro s2 amt hok2
    rw [hred] at hok2
    by_cases hp : (s.merchants merchantId).totalProfit = 0
    · rw [if_pos hp] at hok2
      exact Except.noConfusion hok2
    · rw [if_neg hp] at hok2
      simp only [Except.ok.injEq, Prod.mk.injEq] at hok2
      obtain ⟨hs2, hamt⟩ := hok2
      refine ⟨hamt.symm, ?_⟩
      rw [← hs2]
      simp [CoreV2.withdrawProfit, hInit, CoreState.ownerOf, hOwn, hNz]

/-- Witness for C7: withdrawing the sample balance of 20 succeeds and
zeroes the stored balance. -/
theorem withdraw_profit_spec_witness :
    CoreV2.withdrawProfit profitState 9 1 =
      Except.ok (CoreV2.applyWithdraw profitState 9 1, (profitState.merchants 1).totalProfit) ∧
    ((CoreV2.applyWithdraw profitState 9 1).merchants 1).totalProfit = 0 :=
  (withdraw_profit_spec profitState 9 1 rfl rfl (by decide)).2.1 (by decide)

/-- Successful initialization of an instance whose next token is unminted
and whose counter has room, with a valid name and owner: the explicit
post-state. -/
theorem initializeClone_succeeds (s : CoreState) (name : String) (owner : Nat)
    (h0 : s.initialized = false) (h1 : name ≠ "") (h2 : owner ≠ 0)
    (h3 : s.tokenOwner (s.tokenIdCounter + 1) = 0) (h4 : s.tokenIdCounter + 1 < U256) :
    CoreV2.initializeClone s name owner =
      Except.ok
        { s with
          initialized := true
          merchantOwner := owner
          tokenIdCounter := s.tokenIdCounter + 1
          tokenOwner := fun t => if t = s.tokenIdCounter + 1 then owner else s.tokenOwner t
          merchants := fun m =>
            if m = s.tokenIdCounter + 1 then { name := name, owner := owner, totalProfit := 0 }
            else s.merchants m } := by
  simp [CoreV2.initializeClone, ValidationLib.validateName, h0, h1, h2, h3,
    Nat.not_le.mpr h4]

/-- C9: the factory's agent registration is unguarded — for every caller
and every address, registerAIAgent succeeds (it is total), ignores who the
caller is, and sets isAIAgent for the argument, after which that address
passes createMerchant's only authorization gate: its createMerchant call
succeeds (given a valid merchant name and a non-zero address for the
clone's owner slot). -/
theorem register_agent_unguarded (s : FactoryState) (caller agent : Nat) :
    (Factory.registerAIAgent s caller agent).isAIAgent agent = true ∧
    (∀ caller2, Factory.registerAIAgent s caller agent =
      Factory.registerAIAgent s caller2 agent) ∧
    (∀ clone name, name ≠ "" → agent ≠ 0 →
      exceptOk (Factory.createMerchant (Factory.registerAIAgent s caller agent)
        agent clone name) = true) := by
  have hag : (Factory.registerAIAgent s caller agent).isAIAgent agent = true := by
    simp [Factory.registerAIAgent]
  refine ⟨hag, fun c2 => rfl, ?_⟩
  intro clone name hn ha
  have h4 : cloneState.tokenIdCounter + 1 < U256 := by
    unfold U256
    exact Nat.one_lt_two_pow_iff.mpr (by decide)
  have hinit := initializeClone_succeeds cloneState name agent rfl hn ha rfl h4
  simp [Factory.createMerchant, hag, hinit, exceptOk]

/-- Witness for C9: anyone (address 5) can register address 7, and 7 can
then create a merchant clone. -/
theorem register_agent_unguarded_witness :
    (Factory.registerAIAgent emptyFactory 5 7).isAIAgent 7 = true ∧
    exceptOk (Factory.createMerchant (Factory.registerAIAgent emptyFactory 5 7)
      7 9 "Shop") = true :=
  ⟨(register_agent_unguarded emptyFactory 5 7).1,
   (register_agent_unguarded emptyFactory 5 7).2.2 9 "Shop" (by decide) (by decide)⟩
